import Mathlib

/-!
Shallow embedding of the "uncle" backend (Cloudflare Worker + Hono, TypeScript).

The embedding follows `src/unnamed/part_000` (the Clerk deployment, which holds the
holdings/search/news endpoints) and, for the authentication middleware comparison,
the Keycloak variant in the same file.  TypeScript numbers that originate from JSON
bodies are modelled as rationals: JSON cannot encode NaN or Infinity, so the
`isNaN`/`isFinite` guards of the create handler can never fire on a parsed body and
are not represented.  Network effects (the Tiingo fetches, the JWKS fetch) are
modelled by passing the outcome of the single attempted request as an explicit
argument, and each handler result records whether the handler reached its fetch.
-/

namespace Uncle

/-- A row of the `holdings` D1 table (interface `Holding` in the source). -/
structure Holding where
  id : Nat
  user_id : String
  symbol : String
  name : String
  shares : ℚ
  avg_price : ℚ
deriving DecidableEq, Repr

/-- A record of the Tiingo IEX price array (interface `TiingoPrice`): a ticker,
a `last` price, and arbitrary further fields (`[key: string]: any`), modelled as
an association list so that `priceData` can carry the full payload. -/
structure TiingoPrice where
  ticker : String
  last : ℚ
  extra : List (String × String)
deriving DecidableEq, Repr

/-- One element of the `enrichedHoldings` array built by `GET /api/holdings`:
the spread holding plus the two always-present fields `currentPrice` and
`priceData` (JS `null` is `Option.none`). -/
structure EnrichedHolding where
  base : Holding
  currentPrice : Option ℚ
  priceData : Option TiingoPrice
deriving DecidableEq, Repr

/-- `priceMap` construction: `priceData.forEach(item => priceMap[item.ticker] = item)`.
Later array entries overwrite earlier ones, exactly as reassignment of an object
key does. -/
def buildPriceMap (items : List TiingoPrice) : String → Option TiingoPrice :=
  items.foldl (fun m item => fun s => if s = item.ticker then some item else m s)
    (fun _ => none)

/-- One step of the `holdings.map` enrichment:
`currentPrice: priceMap[holding.symbol]?.last || null` and
`priceData: priceMap[holding.symbol] || null`.
JavaScript `||` yields its right operand when the left is falsy, and the number `0`
is falsy, so a matched quote whose `last` is `0` produces `currentPrice = null`. -/
def enrichHolding (pm : String → Option TiingoPrice) (h : Holding) : EnrichedHolding :=
  ⟨h,
    match pm h.symbol with
    | some q => if q.last = 0 then none else some q.last
    | none => none,
    pm h.symbol⟩

/-- The `holdings.map(holding => ...)` call of the handler. -/
def enrichHoldings (pm : String → Option TiingoPrice) (hs : List Holding) :
    List EnrichedHolding :=
  hs.map (enrichHolding pm)

/-- The JSON body of an HTTP-successful Tiingo price response, as seen by the
handler's `Array.isArray(priceData)` test: either an array of price records or
any non-array JSON value (for example an error object). -/
inductive PriceBody
  | arr (items : List TiingoPrice)
  | notArr
deriving DecidableEq, Repr

/-- The `priceMap` the handler ends up with: populated from an array body, and
left empty (`\x7b\x7d`) when `Array.isArray` fails. -/
def priceMapOfBody : PriceBody → String → Option TiingoPrice
  | .arr items => buildPriceMap items
  | .notArr => fun _ => none

/-- Outcome of the single attempted price fetch: an HTTP-success response with a
parsed JSON body, a non-success response (`!priceResponse.ok`), or a thrown
network/parse error (caught by the handler's try/catch). -/
inductive PriceFetch
  | ok (body : PriceBody)
  | notOk
  | netErr
deriving DecidableEq, Repr

/-- The JSON body returned by `GET /api/holdings`: a plain holdings array
(`c.json(holdings)` — no `currentPrice`/`priceData` keys), an enriched array
(`c.json(enrichedHoldings)` — both keys always present), or an error object. -/
inductive HoldingsBody
  | plainList (hs : List Holding)
  | enrichedList (es : List EnrichedHolding)
  | errorObj (msg : String)
deriving DecidableEq, Repr

/-- Result of one `GET /api/holdings` request: HTTP status, JSON body, and
whether the handler performed the outbound price fetch. -/
structure HoldingsResult where
  status : Nat
  body : HoldingsBody
  fetched : Bool
deriving DecidableEq, Repr

/-- `SELECT * FROM holdings WHERE user_id = ?` over a database modelled as the
list of rows in insertion order. -/
def listByOwner (db : List Holding) (owner : String) : List Holding :=
  db.filter (fun h => h.user_id == owner)

/-- The `GET /api/holdings` handler body after authentication: list the rows,
short-circuit to `[]` when there are none, otherwise fetch prices once and
either return the raw rows (non-success response), a 500 error object (thrown
error), or the enriched rows. -/
def getHoldings (db : List Holding) (userId : String) (fetch : PriceFetch) :
    HoldingsResult :=
  let holdings := listByOwner db userId
  if holdings.length = 0 then ⟨200, .plainList [], false⟩
  else
    match fetch with
    | .ok body => ⟨200, .enrichedList (enrichHoldings (priceMapOfBody body) holdings), true⟩
    | .notOk => ⟨200, .plainList holdings, true⟩
    | .netErr => ⟨500, .errorObj "Failed to fetch holdings", true⟩

/-- A decoded JWT payload: registered claims used by the verification options
plus the open-ended rest of the claims map. -/
structure JwtPayload where
  iss : Option String
  sub : Option String
  exp : Option Nat
  nbf : Option Nat
  extra : List (String × String)
deriving DecidableEq, Repr

/-- A presented bearer token: whether its signature verifies against the
resolved JWKS, plus its decoded payload. -/
structure Token where
  sigValid : Bool
  payload : JwtPayload
deriving DecidableEq, Repr

/-- jose's `exp` check: only enforced when the claim is present. -/
def checkExp : Option Nat → Nat → Bool
  | some e, now => decide (now < e)
  | none, _ => true

/-- jose's `nbf` check: only enforced when the claim is present. -/
def checkNbf : Option Nat → Nat → Bool
  | some n, now => decide (n ≤ now)
  | none, _ => true

/-- Model of `jwtVerify(token, JWKS, \x7b issuer \x7d)` (jose): the token is
accepted when its signature verifies, its `iss` claim equals the expected
issuer exactly, its `exp` (if present) lies in the future and its `nbf` (if
present) has passed.  No `requiredClaims` option is passed, so jose places no
condition on `sub`. -/
def jwtVerify (tok : Token) (expectedIssuer : String) (now : Nat) : Option JwtPayload :=
  if tok.sigValid
      && tok.payload.iss == some expectedIssuer
      && checkExp tok.payload.exp now
      && checkNbf tok.payload.nbf now
  then some tok.payload
  else none

/-- Where key resolution can fail before the token is ever checked: the `URL`
constructor throws on a malformed issuer string, or the JWKS fetch/parse throws
inside `jwtVerify`; otherwise the key set is resolved (signature validity is
then recorded on the token itself). -/
inductive KeyResolution
  | urlMalformed
  | fetchError
  | resolved
deriving DecidableEq, Repr

/-- Outcome of the authentication middleware: hand the decoded payload to the
next handler, reject with a status and JSON error message, or let an exception
escape the middleware uncaught. -/
inductive AuthResult
  | proceed (payload : JwtPayload)
  | reject (status : Nat) (msg : String)
  | uncaughtException
deriving DecidableEq, Repr

/-- Character-level model of `authHeader.startsWith('Bearer ')`. -/
def headerHasBearer (h : String) : Bool :=
  "Bearer ".data.isPrefixOf h.data

/-- The Clerk-variant `authMiddleware`: header check first; then the `URL`
construction, JWKS resolution and `jwtVerify` all sit inside one try/catch
whose catch returns 401 "Unauthorized: Invalid token". -/
def clerkAuth (header : Option String) (kr : KeyResolution) (tok : Token)
    (issuer : String) (now : Nat) : AuthResult :=
  match header with
  | none => .reject 401 "Unauthorized: Missing or invalid token"
  | some h =>
    if headerHasBearer h then
      match kr with
      | .urlMalformed => .reject 401 "Unauthorized: Invalid token"
      | .fetchError => .reject 401 "Unauthorized: Invalid token"
      | .resolved =>
        match jwtVerify tok issuer now with
        | some p => .proceed p
        | none => .reject 401 "Unauthorized: Invalid token"
    else .reject 401 "Unauthorized: Missing or invalid token"

/-- The Keycloak-variant `authMiddleware`: identical, except that the `URL`
constructor runs before the try block, so a malformed issuer escapes as an
uncaught exception instead of being converted to a 401. -/
def keycloakAuth (header : Option String) (kr : KeyResolution) (tok : Token)
    (issuer : String) (now : Nat) : AuthResult :=
  match header with
  | none => .reject 401 "Unauthorized: Missing or invalid token"
  | some h =>
    if headerHasBearer h then
      match kr with
      | .urlMalformed => .uncaughtException
      | .fetchError => .reject 401 "Unauthorized: Invalid token"
      | .resolved =>
        match jwtVerify tok issuer now with
        | some p => .proceed p
        | none => .reject 401 "Unauthorized: Invalid token"
    else .reject 401 "Unauthorized: Missing or invalid token"

/-- `DELETE FROM holdings WHERE id = ? AND user_id = ?`: the remaining rows and
the reported change count (`result.meta.changes`). -/
def deleteByIdAndOwner (db : List Holding) (hid : Nat) (owner : String) :
    List Holding × Nat :=
  let remaining := db.filter (fun h => !(h.id == hid && h.user_id == owner))
  (remaining, db.length - remaining.length)

/-- JSON body returned by `DELETE /api/holdings/:id`. -/
inductive DeleteBody
  | errorMsg (s : String)
  | successMsg (s : String)
deriving DecidableEq, Repr

/-- Result of one delete request: HTTP status, JSON body, database afterwards. -/
structure DeleteResult where
  status : Nat
  body : DeleteBody
  db : List Holding
deriving DecidableEq, Repr

/-- The `DELETE /api/holdings/:id` handler body after authentication: run the
scoped delete, report 404 when `changes === 0`, success otherwise. -/
def deleteHolding (db : List Holding) (userId : String) (hid : Nat) : DeleteResult :=
  let r := deleteByIdAndOwner db hid userId
  if r.2 = 0 then ⟨404, .errorMsg "Holding not found or unauthorized", r.1⟩
  else ⟨200, .successMsg "Holding deleted successfully", r.1⟩

/-- An opaque news record as returned by the Tiingo news endpoint; the handler
passes it through without inspecting any field. -/
structure NewsItem where
  raw : String
deriving DecidableEq, Repr

/-- Outcome of the single attempted news fetch. -/
inductive NewsFetch
  | ok (items : List NewsItem)
  | notOk
  | netErr
deriving DecidableEq, Repr

/-- JSON body returned by `GET /api/news`: the provider array (also used for
the `[]` short-circuit) or an error object. -/
inductive NewsBody
  | arr (items : List NewsItem)
  | errorObj (msg : String)
deriving DecidableEq, Repr

/-- Result of one `GET /api/news` request. -/
structure NewsResult where
  status : Nat
  body : NewsBody
  fetched : Bool
deriving DecidableEq, Repr

/-- `SELECT DISTINCT symbol FROM holdings WHERE user_id = ?`. -/
def distinctSymbols (db : List Holding) (owner : String) : List String :=
  ((listByOwner db owner).map (fun h => h.symbol)).dedup

/-- The `GET /api/news` handler body after authentication: short-circuit to
`[]` when the user has no symbols, otherwise fetch once; a non-success response
or a thrown error both become a 500, a success is passed through. -/
def getNews (db : List Holding) (userId : String) (fetch : NewsFetch) : NewsResult :=
  let syms := distinctSymbols db userId
  if syms.length = 0 then ⟨200, .arr [], false⟩
  else
    match fetch with
    | .ok items => ⟨200, .arr items, true⟩
    | .notOk => ⟨500, .errorObj "Failed to fetch news", true⟩
    | .netErr => ⟨500, .errorObj "Failed to fetch news", true⟩

/-- A JavaScript value as it comes out of `await c.req.json()` destructuring:
a missing key destructures to `undefined`. -/
inductive JsVal
  | undef
  | jsNull
  | str (s : String)
  | num (q : ℚ)
  | boolean (b : Bool)
deriving DecidableEq, Repr

/-- JavaScript truthiness (`!symbol`, `!name`): `undefined`, `null`, the empty
string, the number `0` and `false` are falsy. -/
def JsVal.truthy : JsVal → Bool
  | .undef => false
  | .jsNull => false
  | .str s => !(s == "")
  | .num q => !(q == 0)
  | .boolean b => b

/-- `typeof v === 'number'`. -/
def JsVal.isNum : JsVal → Bool
  | .num _ => true
  | _ => false

/-- Numeric payload (only meaningful after `isNum` has been checked). -/
def JsVal.asNum : JsVal → ℚ
  | .num q => q
  | _ => 0

/-- String payload (only meaningful for string values). -/
def JsVal.asStr : JsVal → String
  | .str s => s
  | _ => ""

/-- The destructured fields of the `POST /api/holdings` request body. -/
structure CreateBody where
  symbol : JsVal
  name : JsVal
  shares : JsVal
  avg_price : JsVal
deriving DecidableEq, Repr

/-- Response of `POST /api/holdings`: a 400 validation error with its
field-specific message, or the 201 created acknowledgement. -/
inductive CreateResp
  | validationErr (msg : String)
  | created (id : Nat)
deriving DecidableEq, Repr

/-- Result of one create request: HTTP status, response, database afterwards. -/
structure CreateResult where
  status : Nat
  resp : CreateResp
  db : List Holding
deriving DecidableEq, Repr

/-- Fresh `AUTOINCREMENT` row id: one more than the largest id in the table. -/
def nextId (db : List Holding) : Nat :=
  db.foldl (fun m h => max m h.id) 0 + 1

/-- The `POST /api/holdings` handler body after authentication, in source
order: presence check, number-type check, positivity check on `shares`,
non-negativity check on `avg_price`, then the insert.  (The `isNaN`/`isFinite`
guards sit between the type check and the sign checks in the source; a JSON
body cannot produce NaN or Infinity, so they never fire and are omitted.) -/
def postHolding (db : List Holding) (userId : String) (b : CreateBody) : CreateResult :=
  if !b.symbol.truthy || !b.name.truthy || b.shares == .undef || b.avg_price == .undef then
    ⟨400, .validationErr "Missing required fields: symbol, name, shares, avg_price", db⟩
  else if !b.shares.isNum || !b.avg_price.isNum then
    ⟨400, .validationErr "shares and avg_price must be numbers", db⟩
  else if b.shares.asNum ≤ 0 then
    ⟨400, .validationErr "shares must be greater than 0", db⟩
  else if b.avg_price.asNum < 0 then
    ⟨400, .validationErr "avg_price must be non-negative", db⟩
  else
    ⟨201, .created (nextId db),
      db ++ [⟨nextId db, userId, b.symbol.asStr, b.name.asStr, b.shares.asNum, b.avg_price.asNum⟩]⟩

/-! ## Theorems -/

/-- C1 counterexample: with one stored holding and a non-success price response,
the handler returns the plain holdings list — the body is `c.json(holdings)`,
whose elements carry no `currentPrice`/`priceData` keys — and not the enriched
list with explicit null markers that the claim requires. -/
theorem holdings_notOk_body_is_plain_not_enriched :
    (getHoldings [⟨1, "u1", "AAPL", "Apple Inc.", 10, 150⟩] "u1" PriceFetch.notOk).body
        = HoldingsBody.plainList [⟨1, "u1", "AAPL", "Apple Inc.", 10, 150⟩]
    ∧ (getHoldings [⟨1, "u1", "AAPL", "Apple Inc.", 10, 150⟩] "u1" PriceFetch.notOk).body
        ≠ HoldingsBody.enrichedList
            [⟨⟨1, "u1", "AAPL", "Apple Inc.", 10, 150⟩, none, none⟩] := by
  decide

/-- C1 (amended): when the price provider returns a non-success response,
`GET /api/holdings` still succeeds with status 200 and returns the stored
holdings list unenriched — the `currentPrice` and `priceData` fields are
omitted from the response objects, not present with null values. -/
theorem holdings_notOk_returns_plain_list (db : List Holding) (u : String) :
    (getHoldings db u PriceFetch.notOk).status = 200
    ∧ (getHoldings db u PriceFetch.notOk).body
        = HoldingsBody.plainList (listByOwner db u) := by
  rcases h : listByOwner db u with _ | ⟨a, as⟩ <;> simp [getHoldings, h]

/-- C2 counterexample: a token whose signature verifies, whose `iss` matches and
whose `exp` lies in the future, but whose payload has no `sub` claim, is
accepted by `jwtVerify` and handed to the handlers by the middleware — it is
not rejected, contradicting the claim that verification fails without `sub`. -/
theorem jwtVerify_accepts_token_without_sub :
    clerkAuth (some "Bearer tok") KeyResolution.resolved
        ⟨true, ⟨some "https://iss.example", none, some 100, none, []⟩⟩
        "https://iss.example" 50
      = AuthResult.proceed ⟨some "https://iss.example", none, some 100, none, []⟩
    ∧ (⟨some "https://iss.example", none, some 100, none, []⟩ : JwtPayload).sub
        = none := by
  decide

/-- C2 (amended): `jwtVerify` accepts any token whose signature verifies, whose
`iss` claim equals the expected issuer, and whose `exp`/`nbf` checks pass,
returning the full decoded payload — with no condition on `sub`; the subject
identifier the handlers then use is the payload's (possibly absent) `sub`
claim. -/
theorem jwtVerify_accepts_without_sub_check (tok : Token) (issuer : String) (now : Nat)
    (hsig : tok.sigValid = true)
    (hiss : tok.payload.iss = some issuer)
    (hexp : checkExp tok.payload.exp now = true)
    (hnbf : checkNbf tok.payload.nbf now = true) :
    jwtVerify tok issuer now = some tok.payload := by
  simp [jwtVerify, hsig, hiss, hexp, hnbf]

/-- C2 witness: the acceptance theorem applied to a concrete token that has no
`sub` claim. -/
theorem jwtVerify_accepts_without_sub_check_witness :
    jwtVerify ⟨true, ⟨some "https://iss.example", none, some 100, none, []⟩⟩
        "https://iss.example" 50
      = some ⟨some "https://iss.example", none, some 100, none, []⟩ :=
  jwtVerify_accepts_without_sub_check
    ⟨true, ⟨some "https://iss.example", none, some 100, none, []⟩⟩
    "https://iss.example" 50 rfl rfl (by decide) rfl

/-- C3 counterexample: in the Clerk middleware a malformed issuer URL and a
failed JWKS fetch are both caught by the try/catch and reported as the generic
401 "Unauthorized: Invalid token" — exactly the same response an invalid token
gets — contradicting the claim that these failures are never reported as the
generic authentication failure. -/
theorem clerkAuth_resolver_failures_look_generic :
    clerkAuth (some "Bearer tok") KeyResolution.urlMalformed
        ⟨true, ⟨some "iss", some "u1", none, none, []⟩⟩ "iss" 0
      = AuthResult.reject 401 "Unauthorized: Invalid token"
    ∧ clerkAuth (some "Bearer tok") KeyResolution.fetchError
        ⟨true, ⟨some "iss", some "u1", none, none, []⟩⟩ "iss" 0
      = AuthResult.reject 401 "Unauthorized: Invalid token"
    ∧ clerkAuth (some "Bearer tok") KeyResolution.resolved
        ⟨false, ⟨some "iss", some "u1", none, none, []⟩⟩ "iss" 0
      = AuthResult.reject 401 "Unauthorized: Invalid token" := by
  decide

/-- C3 (amended): in the Clerk variant, a malformed issuer URL and a JWKS
fetch/parse failure are both converted by the middleware's catch block into the
generic 401 "Unauthorized: Invalid token", indistinguishable from an invalid
token; in the Keycloak variant the URL is built outside the try block, so a
malformed issuer escapes as an uncaught exception while a fetch failure is
still reported as the generic 401. -/
theorem authMiddleware_resolver_failure_reporting (h : String) (tok : Token)
    (issuer : String) (now : Nat) (hb : headerHasBearer h = true) :
    clerkAuth (some h) KeyResolution.urlMalformed tok issuer now
        = AuthResult.reject 401 "Unauthorized: Invalid token"
    ∧ clerkAuth (some h) KeyResolution.fetchError tok issuer now
        = AuthResult.reject 401 "Unauthorized: Invalid token"
    ∧ keycloakAuth (some h) KeyResolution.urlMalformed tok issuer now
        = AuthResult.uncaughtException
    ∧ keycloakAuth (some h) KeyResolution.fetchError tok issuer now
        = AuthResult.reject 401 "Unauthorized: Invalid token" := by
  simp [clerkAuth, keycloakAuth, hb]

/-- C3 witness: the reporting theorem applied to a concrete Bearer header. -/
theorem authMiddleware_resolver_failure_reporting_witness :
    clerkAuth (some "Bearer tok") KeyResolution.urlMalformed
        ⟨true, ⟨some "iss", some "u1", none, none, []⟩⟩ "iss" 0
      = AuthResult.reject 401 "Unauthorized: Invalid token"
    ∧ clerkAuth (some "Bearer tok") KeyResolution.fetchError
        ⟨true, ⟨some "iss", some "u1", none, none, []⟩⟩ "iss" 0
      = AuthResult.reject 401 "Unauthorized: Invalid token"
    ∧ keycloakAuth (some "Bearer tok") KeyResolution.urlMalformed
        ⟨true, ⟨some "iss", some "u1", none, none, []⟩⟩ "iss" 0
      = AuthResult.uncaughtException
    ∧ keycloakAuth (some "Bearer tok") KeyResolution.fetchError
        ⟨true, ⟨some "iss", some "u1", none, none, []⟩⟩ "iss" 0
      = AuthResult.reject 401 "Unauthorized: Invalid token" :=
  authMiddleware_resolver_failure_reporting "Bearer tok"
    ⟨true, ⟨some "iss", some "u1", none, none, []⟩⟩ "iss" 0 (by decide)

/-- Helper: a map built by repeated `priceMap[item.ticker] = item` assignments
only ever stores a record under its own ticker, whatever map it started from. -/
theorem priceMap_foldl_ticker_eq (items : List TiingoPrice)
    (m0 : String → Option TiingoPrice)
    (h0 : ∀ s q, m0 s = some q → q.ticker = s) :
    ∀ s q,
      (items.foldl (fun m item => fun s => if s = item.ticker then some item else m s) m0) s
          = some q →
      q.ticker = s := by
  induction items generalizing m0 with
  | nil => exact h0
  | cons a as ih =>
    intro s q hq
    refine ih _ ?_ s q hq
    intro s' q' hq'
    change (if s' = a.ticker then some a else m0 s') = some q' at hq'
    by_cases hs : s' = a.ticker
    · rw [if_pos hs] at hq'
      injection hq' with hq'
      rw [← hq', hs]
    · rw [if_neg hs] at hq'
      exact h0 s' q' hq'

/-- Helper: every record found in `buildPriceMap items` sits under exactly its
own ticker string. -/
theorem buildPriceMap_ticker_eq (items : List TiingoPrice) (s : String)
    (q : TiingoPrice) (hq : buildPriceMap items s = some q) : q.ticker = s :=
  priceMap_foldl_ticker_eq items (fun _ => none) (fun _ _ h => by cases h) s q hq

/-- C4: deleting a holding whose `(id, user_id)` pair matches no row — whether
the id belongs to a different owner or does not exist at all — produces the
identical result: status 404, body "Holding not found or unauthorized", and an
unchanged database. -/
theorem delete_no_owned_match_not_found (db : List Holding) (u : String) (hid : Nat)
    (hno : ∀ h ∈ db, ¬(h.id = hid ∧ h.user_id = u)) :
    deleteHolding db u hid
      = ⟨404, DeleteBody.errorMsg "Holding not found or unauthorized", db⟩ := by
  have hfilter : db.filter (fun h => !(h.id == hid && h.user_id == u)) = db := by
    apply List.filter_eq_self.mpr
    intro h hm
    simpa using not_and_or.mp (hno h hm)
  simp only [deleteHolding, deleteByIdAndOwner]
  rw [hfilter]
  simp

/-- C4 witness: with one row owned by `u2`, a delete by `u1` of the existing id
1 and of the non-existent id 99 produce the identical 404 result. -/
theorem delete_no_owned_match_not_found_witness :
    deleteHolding [⟨1, "u2", "AAPL", "Apple Inc.", 10, 150⟩] "u1" 1
      = ⟨404, DeleteBody.errorMsg "Holding not found or unauthorized",
          [⟨1, "u2", "AAPL", "Apple Inc.", 10, 150⟩]⟩
    ∧ deleteHolding [⟨1, "u2", "AAPL", "Apple Inc.", 10, 150⟩] "u1" 99
      = ⟨404, DeleteBody.errorMsg "Holding not found or unauthorized",
          [⟨1, "u2", "AAPL", "Apple Inc.", 10, 150⟩]⟩ :=
  ⟨delete_no_owned_match_not_found _ "u1" 1 (by decide),
   delete_no_owned_match_not_found _ "u1" 99 (by decide)⟩

/-- C5 counterexample: a provider quote for the holding's exact symbol with
`last = 0` is matched — `priceData` carries it — yet `currentPrice` comes out
as the absent marker, not `0`, because `?.last || null` treats `0` as falsy. -/
theorem merge_zero_last_price_becomes_null :
    buildPriceMap [⟨"AAPL", 0, []⟩] "AAPL" = some ⟨"AAPL", 0, []⟩
    ∧ (enrichHolding (buildPriceMap [⟨"AAPL", 0, []⟩])
          ⟨1, "u1", "AAPL", "Apple Inc.", 10, 150⟩).priceData
        = some ⟨"AAPL", 0, []⟩
    ∧ (enrichHolding (buildPriceMap [⟨"AAPL", 0, []⟩])
          ⟨1, "u1", "AAPL", "Apple Inc.", 10, 150⟩).currentPrice = none
    ∧ (enrichHolding (buildPriceMap [⟨"AAPL", 0, []⟩])
          ⟨1, "u1", "AAPL", "Apple Inc.", 10, 150⟩).currentPrice ≠ some 0 := by
  decide

/-- C5 (amended): the merge looks each holding's symbol up in the price map by
exact string equality (a stored record's ticker equals the lookup key, with no
case-folding); a matched holding carries the full quote as `priceData` and the
quote's `last` as `currentPrice` except that a `last` of `0` degrades to the
absent marker (JavaScript `|| null` treats `0` as falsy); an unmatched holding
carries the absent marker in both fields, which are never omitted. -/
theorem merge_exact_match_fields (items : List TiingoPrice) (h : Holding) :
    (∀ q, buildPriceMap items h.symbol = some q →
        q.ticker = h.symbol
        ∧ (enrichHolding (buildPriceMap items) h).priceData = some q
        ∧ (enrichHolding (buildPriceMap items) h).currentPrice
            = (if q.last = 0 then none else some q.last))
    ∧ (buildPriceMap items h.symbol = none →
        enrichHolding (buildPriceMap items) h = ⟨h, none, none⟩) := by
  constructor
  · intro q hq
    refine ⟨buildPriceMap_ticker_eq items h.symbol q hq, ?_, ?_⟩ <;>
      simp [enrichHolding, hq]
  · intro hq
    simp [enrichHolding, hq]

/-- C5 witness: the merge theorem applied to a one-quote array matching the
stored symbol exactly. -/
theorem merge_exact_match_fields_witness :
    (⟨"AAPL", 191, [("open", "190")]⟩ : TiingoPrice).ticker = "AAPL"
    ∧ (enrichHolding (buildPriceMap [⟨"AAPL", 191, [("open", "190")]⟩])
          ⟨1, "u1", "AAPL", "Apple Inc.", 10, 150⟩).priceData
        = some ⟨"AAPL", 191, [("open", "190")]⟩
    ∧ (enrichHolding (buildPriceMap [⟨"AAPL", 191, [("open", "190")]⟩])
          ⟨1, "u1", "AAPL", "Apple Inc.", 10, 150⟩).currentPrice
        = (if (191 : ℚ) = 0 then none else some (191 : ℚ)) :=
  (merge_exact_match_fields [⟨"AAPL", 191, [("open", "190")]⟩]
      ⟨1, "u1", "AAPL", "Apple Inc.", 10, 150⟩).1
    ⟨"AAPL", 191, [("open", "190")]⟩ (by decide)

/-- C6: enrichment is a per-element map: the output has the same length as the
input holdings list, and the i-th output is the enrichment of the i-th input —
the order is preserved, never re-sorted. -/
theorem enrichHoldings_preserves_length_and_order
    (pm : String → Option TiingoPrice) (hs : List Holding) :
    (enrichHoldings pm hs).length = hs.length
    ∧ ∀ i : Nat, (enrichHoldings pm hs)[i]? = (hs[i]?).map (enrichHolding pm) :=
  ⟨List.length_map hs (enrichHolding pm), fun i => List.getElem?_map (enrichHolding pm) hs i⟩

/-- C7: a create request whose `shares` is a number ≤ 0 (including 0) or whose
`avg_price` is a number < 0 is rejected with status 400 before the insert runs:
the database is unchanged. -/
theorem create_invalid_numbers_rejected (db : List Holding) (u : String)
    (b : CreateBody) (sh ap : ℚ)
    (hsh : b.shares = JsVal.num sh) (hap : b.avg_price = JsVal.num ap)
    (hbad : sh ≤ 0 ∨ ap < 0) :
    (postHolding db u b).status = 400 ∧ (postHolding db u b).db = db := by
  unfold postHolding
  split
  · exact ⟨rfl, rfl⟩
  split
  · exact ⟨rfl, rfl⟩
  split
  · exact ⟨rfl, rfl⟩
  split
  · exact ⟨rfl, rfl⟩
  rename_i h1 h2 h3 h4
  exfalso
  rcases hbad with hb | hb
  · exact h3 (by rw [hsh]; exact hb)
  · exact h4 (by rw [hap]; exact hb)

/-- C7 witness: the rejection theorem applied to a body with `shares = 0`. -/
theorem create_invalid_numbers_rejected_witness :
    (postHolding [] "u1"
        ⟨JsVal.str "AAPL", JsVal.str "Apple Inc.", JsVal.num 0, JsVal.num 150⟩).status
      = 400
    ∧ (postHolding [] "u1"
        ⟨JsVal.str "AAPL", JsVal.str "Apple Inc.", JsVal.num 0, JsVal.num 150⟩).db
      = [] :=
  create_invalid_numbers_rejected [] "u1"
    ⟨JsVal.str "AAPL", JsVal.str "Apple Inc.", JsVal.num 0, JsVal.num 150⟩
    0 150 rfl rfl (Or.inl le_rfl)

/-- C8: when the user holds at least one row, a non-success news-provider
response (and likewise a thrown fetch error) makes `GET /api/news` fail hard
with status 500 and the "Failed to fetch news" error body — it does not degrade
to an empty list the way the price fetch degrades. -/
theorem news_provider_failure_is_500 (db : List Holding) (u : String)
    (hne : listByOwner db u ≠ []) :
    getNews db u NewsFetch.notOk
        = ⟨500, NewsBody.errorObj "Failed to fetch news", true⟩
    ∧ getNews db u NewsFetch.netErr
        = ⟨500, NewsBody.errorObj "Failed to fetch news", true⟩ := by
  have hsym : ¬ (distinctSymbols db u).length = 0 := by
    simp only [distinctSymbols, List.length_eq_zero, List.dedup_eq_nil, List.map_eq_nil_iff]
    exact hne
  constructor <;> simp [getNews, hsym]

/-- C8 witness: the hard-failure theorem applied to a one-row database. -/
theorem news_provider_failure_is_500_witness :
    getNews [⟨1, "u1", "AAPL", "Apple Inc.", 10, 150⟩] "u1" NewsFetch.notOk
        = ⟨500, NewsBody.errorObj "Failed to fetch news", true⟩
    ∧ getNews [⟨1, "u1", "AAPL", "Apple Inc.", 10, 150⟩] "u1" NewsFetch.netErr
        = ⟨500, NewsBody.errorObj "Failed to fetch news", true⟩ :=
  news_provider_failure_is_500 [⟨1, "u1", "AAPL", "Apple Inc.", 10, 150⟩] "u1"
    (by decide)

/-- C9: when the authenticated subject has no holdings rows, both
`GET /api/holdings` and `GET /api/news` return an empty JSON array with status
200 and never reach their provider fetch, whatever that fetch would have
returned. -/
theorem empty_holdings_short_circuit (db : List Holding) (u : String)
    (pf : PriceFetch) (nf : NewsFetch) (hempty : listByOwner db u = []) :
    getHoldings db u pf = ⟨200, HoldingsBody.plainList [], false⟩
    ∧ getNews db u nf = ⟨200, NewsBody.arr [], false⟩ := by
  constructor <;> simp [getHoldings, getNews, distinctSymbols, hempty]

/-- C9 witness: the short-circuit theorem applied to a database holding only a
row of a different subject. -/
theorem empty_holdings_short_circuit_witness :
    getHoldings [⟨1, "u2", "AAPL", "Apple Inc.", 10, 150⟩] "u1" PriceFetch.notOk
        = ⟨200, HoldingsBody.plainList [], false⟩
    ∧ getNews [⟨1, "u2", "AAPL", "Apple Inc.", 10, 150⟩] "u1" NewsFetch.notOk
        = ⟨200, NewsBody.arr [], false⟩ :=
  empty_holdings_short_circuit [⟨1, "u2", "AAPL", "Apple Inc.", 10, 150⟩] "u1"
    PriceFetch.notOk NewsFetch.notOk (by decide)

/-- C10: an HTTP-successful price response whose JSON body is not an array
leaves the price map empty, and the handler still answers 200 with every
holding enriched by explicit null markers in both price fields. -/
theorem nonarray_price_body_yields_null_markers (db : List Holding) (u : String)
    (hne : listByOwner db u ≠ []) :
    (∀ s, priceMapOfBody PriceBody.notArr s = none)
    ∧ (getHoldings db u (PriceFetch.ok PriceBody.notArr)).status = 200
    ∧ (getHoldings db u (PriceFetch.ok PriceBody.notArr)).body
        = HoldingsBody.enrichedList
            ((listByOwner db u).map (fun h => ⟨h, none, none⟩)) := by
  have hlen : ¬ (listByOwner db u).length = 0 := by
    simpa [List.length_eq_zero] using hne
  refine ⟨fun s => rfl, ?_, ?_⟩ <;>
    simp [getHoldings, hlen, enrichHoldings, priceMapOfBody, enrichHolding]

/-- C10 witness: the null-marker theorem applied to a one-row database. -/
theorem nonarray_price_body_yields_null_markers_witness :
    (priceMapOfBody PriceBody.notArr "AAPL" = none)
    ∧ (getHoldings [⟨1, "u1", "AAPL", "Apple Inc.", 10, 150⟩] "u1"
        (PriceFetch.ok PriceBody.notArr)).status = 200
    ∧ (getHoldings [⟨1, "u1", "AAPL", "Apple Inc.", 10, 150⟩] "u1"
        (PriceFetch.ok PriceBody.notArr)).body
      = HoldingsBody.enrichedList
          [⟨⟨1, "u1", "AAPL", "Apple Inc.", 10, 150⟩, none, none⟩] :=
  have hmain := nonarray_price_body_yields_null_markers
    [⟨1, "u1", "AAPL", "Apple Inc.", 10, 150⟩] "u1" (by decide)
  ⟨hmain.1 "AAPL", hmain.2.1, hmain.2.2⟩

end Uncle
